import Mathlib

/-!
Verification of the bca-rpi-api envelope-scanning service.

The development shallowly embeds the repository's Python sources:
* `services.normalize_item`  → `normalize_item` (verdict engine),
* `services.excel_to_json`   → `excel_to_json` (spreadsheet import),
* `models.create_record`, `models.finish_record`, `models.get_record`,
  `models.get_record_items`  → same-named Lean functions over an explicit
  database state `Db`,
* `main.start_batch`, `main.finish_batch` → same-named request handlers.

Python values reaching the verdict engine are JSON-shaped; they are embedded
as `PyVal`, with `.pnone` standing for Python `None`, and dictionaries as
association lists over the string keys the code actually reads.
-/

/-- A JSON-shaped Python value, as handled by the request bodies. -/
inductive PyVal : Type where
  | pnone : PyVal
  | pbool : Bool → PyVal
  | pint : Int → PyVal
  | pstr : String → PyVal
  | pdict : List (String × PyVal) → PyVal

/-- A Python dict with string keys, as an association list (first binding wins,
like repeated `dict.get` on a dict built without duplicate keys). -/
abbrev PyDict := List (String × PyVal)

/-- `d.get(k)` returning `some v` when the key is present; `none` models a
missing key (distinct from a key bound to Python `None`). -/
def dictGet? (d : PyDict) (k : String) : Option PyVal :=
  (d.find? (fun p => p.1 == k)).map (fun p => p.2)

/-- Python `d.get(k)`: missing keys yield `None`. -/
def dictGetD (d : PyDict) (k : String) : PyVal :=
  (dictGet? d k).getD .pnone

/-- Python truthiness of a value (`if not data: ...`). -/
def truthy : PyVal → Bool
  | .pnone => false
  | .pbool b => b
  | .pint n => n != 0
  | .pstr s => s != ""
  | .pdict l => !l.isEmpty

/-- Python `value is None`. -/
def PyVal.isNone : PyVal → Bool
  | .pnone => true
  | _ => false

/-- Python `valid is False` (the identity test with the `False` object). -/
def PyVal.isFalseV : PyVal → Bool
  | .pbool false => true
  | _ => false

/-- A bare (non-dict, non-None) scalar value in a scanner slot. -/
def PyVal.isBareScalar : PyVal → Bool
  | .pbool _ => true
  | .pint _ => true
  | .pstr _ => true
  | _ => false

/-- Exceptions the verdict engine can raise while reading an item dict. -/
inductive PyErr : Type where
  | attributeError : PyErr
  | keyError : PyErr
deriving DecidableEq

/-- services.py `normalize_item.get`: `data = item.get(scanner_key)`;
falsy data yields `(None, None)`; a dict yields `(data.get("value"),
data.get("valid"))`; any other truthy value has no `.get` attribute. -/
def getScanner (item : PyDict) (key : String) : Except PyErr (PyVal × PyVal) :=
  let data := dictGetD item key
  if truthy data = false then .ok (.pnone, .pnone)
  else
    match data with
    | .pdict e => .ok (dictGetD e "value", dictGetD e "valid")
    | _ => .error .attributeError

/-- services.py: `scanners.get(scanner, (None, None))` over the dict
`{1: get("scanner_1"), 2: get("scanner_2"), 3: get("scanner_3")}`. -/
def slotLookup (s1 s2 s3 : PyVal × PyVal) (s : Int) : PyVal × PyVal :=
  if s = 1 then s1 else if s = 2 then s2 else if s = 3 then s3 else (.pnone, .pnone)

/-- services.py, the `for scanner in scanner_used` loop: starting from
`result = "PASS"`, `fallback = False`, each configured scanner with a `None`
value sets `fallback`; the first one whose valid flag `is False` sets
`result = "FAIL"` and `break`s out of the loop. -/
def verdictLoop (lookup : Int → PyVal × PyVal) (fallback : Bool) :
    List Int → String × Bool
  | [] => ("PASS", fallback)
  | s :: rest =>
    let value := (lookup s).1
    let valid := (lookup s).2
    let fallback1 := if value.isNone then true else fallback
    if valid.isFalseV then ("FAIL", fallback1)
    else verdictLoop lookup fallback1 rest

/-- The dict literal returned by services.py `normalize_item`. Note its keys:
the scanner readings are emitted under `scanner_N` / `scanner_N_valid` and the
verdict under `result` / `fallback`. -/
def mkNorm (iid : PyVal) (record_id : Int) (s1 s2 s3 : PyVal × PyVal)
    (res : String) (fb : Bool) : PyDict :=
  [("item_id", iid), ("record_id", .pint record_id),
   ("scanner_1", s1.1), ("scanner_1_valid", s1.2),
   ("scanner_2", s2.1), ("scanner_2_valid", s2.2),
   ("scanner_3", s3.1), ("scanner_3_valid", s3.2),
   ("result", .pstr res), ("fallback", .pbool fb)]

/-- services.py `normalize_item(item, record_id, scanner_used)`: extract the
three scanner slots, run the verdict loop over `scanner_used`, and build the
normalized dict; `item["item_id"]` raises `KeyError` when the key is missing. -/
def normalize_item (item : PyDict) (record_id : Int) (scanner_used : List Int) :
    Except PyErr PyDict := do
  let s1 ← getScanner item "scanner_1"
  let s2 ← getScanner item "scanner_2"
  let s3 ← getScanner item "scanner_3"
  let rf := verdictLoop (slotLookup s1 s2 s3) false scanner_used
  match dictGet? item "item_id" with
  | none => .error .keyError
  | some iid => .ok (mkNorm iid record_id s1 s2 s3 rf.1 rf.2)

lemma except_bind_ok {α β ε : Type} (a : α) (f : α → Except ε β) :
    (Except.ok a >>= f) = f a := rfl

lemma except_bind_err {α β ε : Type} (e : ε) (f : α → Except ε β) :
    ((Except.error e : Except ε α) >>= f) = Except.error e := rfl

/-- Inversion of a successful `normalize_item` run: all three slot extractions
succeeded, `item_id` was present, and the output is the literal dict. -/
lemma normalize_ok_inv {item : PyDict} {rid : Int} {su : List Int} {d : PyDict}
    (h : normalize_item item rid su = .ok d) :
    ∃ s1 s2 s3 iid,
      getScanner item "scanner_1" = .ok s1 ∧
      getScanner item "scanner_2" = .ok s2 ∧
      getScanner item "scanner_3" = .ok s3 ∧
      dictGet? item "item_id" = some iid ∧
      d = mkNorm iid rid s1 s2 s3
            (verdictLoop (slotLookup s1 s2 s3) false su).1
            (verdictLoop (slotLookup s1 s2 s3) false su).2 := by
  unfold normalize_item at h
  cases hg1 : getScanner item "scanner_1" with
  | error e => rw [hg1, except_bind_err] at h; exact absurd h (by simp)
  | ok s1 =>
    rw [hg1, except_bind_ok] at h
    cases hg2 : getScanner item "scanner_2" with
    | error e => rw [hg2, except_bind_err] at h; exact absurd h (by simp)
    | ok s2 =>
      rw [hg2, except_bind_ok] at h
      cases hg3 : getScanner item "scanner_3" with
      | error e => rw [hg3, except_bind_err] at h; exact absurd h (by simp)
      | ok s3 =>
        rw [hg3, except_bind_ok] at h
        cases hiid : dictGet? item "item_id" with
        | none => rw [hiid] at h; exact absurd h (by simp)
        | some iid =>
          rw [hiid] at h
          refine ⟨s1, s2, s3, iid, rfl, rfl, rfl, rfl, ?_⟩
          cases h
          rfl

lemma dictGetD_mkNorm_result (iid : PyVal) (rid : Int) (s1 s2 s3 : PyVal × PyVal)
    (res : String) (fb : Bool) :
    dictGetD (mkNorm iid rid s1 s2 s3 res fb) "result" = .pstr res := rfl

lemma dictGetD_mkNorm_fallback (iid : PyVal) (rid : Int) (s1 s2 s3 : PyVal × PyVal)
    (res : String) (fb : Bool) :
    dictGetD (mkNorm iid rid s1 s2 s3 res fb) "fallback" = .pbool fb := rfl

/-- The loop result is `"FAIL"` exactly when some scanned slot has its valid
flag identically `False`; the short-circuit does not change this, because a
break can only happen at such a slot. -/
lemma verdictLoop_fail_iff (lookup : Int → PyVal × PyVal) (fb : Bool)
    (su : List Int) :
    (verdictLoop lookup fb su).1 = "FAIL" ↔
      ∃ s ∈ su, (lookup s).2 = .pbool false := by
  induction su generalizing fb with
  | nil => simp [verdictLoop]
  | cons s rest ih =>
    unfold verdictLoop
    by_cases hv : (lookup s).2.isFalseV = true
    · have : (lookup s).2 = .pbool false := by
        cases h2 : (lookup s).2 with
        | pbool b => cases b with
          | false => rfl
          | true => rw [h2] at hv; exact absurd hv (by simp [PyVal.isFalseV])
        | pnone => rw [h2] at hv; exact absurd hv (by simp [PyVal.isFalseV])
        | pint n => rw [h2] at hv; exact absurd hv (by simp [PyVal.isFalseV])
        | pstr t => rw [h2] at hv; exact absurd hv (by simp [PyVal.isFalseV])
        | pdict l => rw [h2] at hv; exact absurd hv (by simp [PyVal.isFalseV])
      simp [hv, this, PyVal.isFalseV]
    · have hne : (lookup s).2 ≠ .pbool false := by
        intro h2; rw [h2] at hv; exact hv rfl
      simp only [hv, if_false, Bool.false_eq_true]
      rw [ih]
      simp [hne]

/-- The slots the loop actually examines: the configured slots up to and
including the first one whose valid flag is identically `False` (the `break`
point), or all of them when none is invalid. -/
def scannedSlots (lookup : Int → PyVal × PyVal) : List Int → List Int
  | [] => []
  | s :: rest =>
    if ((lookup s).2).isFalseV then [s] else s :: scannedSlots lookup rest

/-- The fallback flag records an absent value among the *scanned* slots only:
the `break` taken at the first invalid scanner stops the absence check too. -/
lemma verdictLoop_fallback_iff (lookup : Int → PyVal × PyVal) (fb : Bool)
    (su : List Int) :
    (verdictLoop lookup fb su).2 = true ↔
      (fb = true ∨ ∃ s ∈ scannedSlots lookup su, (lookup s).1 = .pnone) := by
  induction su generalizing fb with
  | nil => simp [verdictLoop, scannedSlots]
  | cons s rest ih =>
    unfold verdictLoop scannedSlots
    have hnone : ∀ v : PyVal, v.isNone = true ↔ v = .pnone := by
      intro v; cases v <;> simp [PyVal.isNone]
    by_cases hv : (lookup s).2.isFalseV = true
    · simp only [hv, if_true]
      by_cases hn : (lookup s).1.isNone = true
      · simp [hn, hnone _ |>.mp hn, PyVal.isNone]
      · have : (lookup s).1 ≠ .pnone := fun h => hn ((hnone _).mpr h)
        simp [hn, this]
    · simp only [hv, if_false, Bool.false_eq_true]
      rw [ih]
      by_cases hn : (lookup s).1.isNone = true
      · simp [hn, hnone _ |>.mp hn, PyVal.isNone]
      · have : (lookup s).1 ≠ .pnone := fun h => hn ((hnone _).mpr h)
        simp [hn, this]

/-- The loop result is always `"PASS"` or `"FAIL"`. -/
lemma verdictLoop_pass_or_fail (lookup : Int → PyVal × PyVal) (fb : Bool)
    (su : List Int) :
    (verdictLoop lookup fb su).1 = "PASS" ∨ (verdictLoop lookup fb su).1 = "FAIL" := by
  induction su generalizing fb with
  | nil => left; rfl
  | cons s rest ih =>
    unfold verdictLoop
    by_cases hv : (lookup s).2.isFalseV = true
    · simp [hv]
    · simp only [hv, if_false, Bool.false_eq_true]
      exact ih _

/-!
Persistence model

models.py talks to two MySQL tables, `records` and `record_item`; both are
modelled explicitly.  Timestamps are an abstract clock value (`Nat`) passed to
each operation in place of `datetime.now()`.  All statements of one
`finish_record` call run in a single transaction with one `commit`; on a
MySQL error the code calls `rollback` and re-raises, so the transaction is
all-or-nothing.  A failure is injected through an explicit `failAt` index
naming the SQL statement that raises.
-/

/-- A row of the `records` table.  `create_record` inserts
`(batch_code, scanner_used, start_time, 'Running', 0)`; `end_time` is absent
from the insert, hence NULL (`none`), while `total_items` starts at `0`. -/
structure RecordRow : Type where
  id : Nat
  batch_code : Option String
  scanner_used : List Int
  start_time : Nat
  end_time : Option Nat
  status : String
  total_items : Option Nat

/-- A row of the `record_item` table, with the column types the inserts and
selects use: scanner values and `validation_result` are nullable text, the
valid flags nullable ints (written as 0/1 by `finish_record`). -/
structure ItemRow : Type where
  record_id : Nat
  item_id : PyVal
  timestamp : Nat
  scanner_1_value : Option String
  scanner_1_valid : Option Int
  scanner_2_value : Option String
  scanner_2_valid : Option Int
  scanner_3_value : Option String
  scanner_3_valid : Option Int
  validation_result : Option String

/-- The database: the two tables plus the `records` auto-increment counter.
`items` is kept in insertion order, which coincides with `record_item.id`
order (the `ORDER BY id ASC` of `get_record_items`). -/
structure Db : Type where
  records : List RecordRow
  items : List ItemRow
  next_id : Nat

def emptyDb : Db := ⟨[], [], 1⟩

/-- models.py `create_record`: one INSERT into `records` with status
`'Running'` and `total_items = 0`, returning `lastrowid`.  No validation of
`scanner_used` happens anywhere on this path. -/
def create_record (db : Db) (scanner_used : List Int) (batch_code : Option String)
    (now : Nat) : Nat × Db :=
  let rid := db.next_id
  (rid,
   { db with
     next_id := rid + 1,
     records := db.records ++
       [{ id := rid, batch_code := batch_code, scanner_used := scanner_used,
          start_time := now, end_time := none, status := "Running",
          total_items := some 0 }] })

/-- schema.py `StartBatchRequest`: pydantic validates only the field types. -/
structure StartBatchRequest : Type where
  scanner_used : List Int
  batch_code : Option String

/-- main.py `start_batch` response body. -/
structure StartResp : Type where
  record_id : Nat
  scanner_used : List Int
  batch_code : Option String

/-- main.py `start_batch`: calls `create_record` directly and echoes the
payload back; there is no configuration validation. -/
def start_batch (db : Db) (payload : StartBatchRequest) (now : Nat) :
    StartResp × Db :=
  let r := create_record db payload.scanner_used payload.batch_code now
  (⟨r.1, payload.scanner_used, payload.batch_code⟩, r.2)

/-- models.py `get_record`: `SELECT * FROM records WHERE id = %s`. -/
def get_record (db : Db) (rid : Nat) : Option RecordRow :=
  db.records.find? (fun r => r.id == rid)

/-- How a Python value is marshalled into a nullable text column by the
parametrized INSERT (`None` → NULL; in this codebase only `None` and strings
ever reach these columns, because `finish_record` reads keys that
`normalize_item`'s output does not carry). -/
def sqlStr : PyVal → Option String
  | .pnone => none
  | .pstr s => some s
  | .pint n => some (toString n)
  | .pbool b => some (if b then "1" else "0")
  | .pdict _ => none

/-- The `record_item` row built by one INSERT of models.py `finish_record`.
The code reads `item.get("scanner_N_value")`, `item.get("scanner_N_valid")`
and `item.get("validation_result")` from the normalized dict, and stores
`1 if valid else 0`.  `item.get("timestamp")` is absent from every
`normalize_item` output, so the `datetime.now()` branch is taken. -/
def itemRowOf (rid : Nat) (now : Nat) (it : PyDict) : ItemRow :=
  { record_id := rid,
    item_id := dictGetD it "item_id",
    timestamp := now,
    scanner_1_value := sqlStr (dictGetD it "scanner_1_value"),
    scanner_1_valid := some (if truthy (dictGetD it "scanner_1_valid") then 1 else 0),
    scanner_2_value := sqlStr (dictGetD it "scanner_2_value"),
    scanner_2_valid := some (if truthy (dictGetD it "scanner_2_valid") then 1 else 0),
    scanner_3_value := sqlStr (dictGetD it "scanner_3_value"),
    scanner_3_valid := some (if truthy (dictGetD it "scanner_3_valid") then 1 else 0),
    validation_result := sqlStr (dictGetD it "validation_result") }

/-- The committed effect of `finish_record`: the UPDATE sets
`end_time, status = 'Completed', total_items` on the matching record, and the
INSERTs append one `record_item` row per item, in submission order. -/
def finishCommit (db : Db) (rid : Nat) (items : List PyDict) (now : Nat) : Db :=
  { db with
    records := db.records.map (fun r =>
      if r.id = rid then
        { r with end_time := some now, status := "Completed",
                 total_items := some items.length }
      else r),
    items := db.items ++ items.map (itemRowOf rid now) }

inductive DbErr : Type where
  | storageFailure : DbErr
deriving DecidableEq

/-- models.py `finish_record`: the UPDATE (statement 0) and the item INSERTs
(statements 1..n) run on one connection with a single `commit()` at the end;
`except Error` rolls the transaction back and re-raises.  `failAt = some k`
makes the k-th statement raise, in which case the database is unchanged. -/
def finish_record (db : Db) (rid : Nat) (items : List PyDict) (now : Nat)
    (failAt : Option Nat) : Option DbErr × Db :=
  match failAt with
  | some k =>
    if k < 1 + items.length then (some .storageFailure, db)
    else (none, finishCommit db rid items now)
  | none => (none, finishCommit db rid items now)

/-- The error responses of main.py `finish_batch`: HTTPException 404
"Record not found", 400 "Item cannot be empty", 400 "Batch already finished",
an uncaught exception from `normalize_item`, or a storage error. -/
inductive ApiErr : Type where
  | notFound : ApiErr
  | emptyInput : ApiErr
  | alreadyFinished : ApiErr
  | pyExc : PyErr → ApiErr
  | storage : ApiErr
deriving DecidableEq

structure FinishResp : Type where
  total_items : Nat
  scanner_used : List Int

/-- The list comprehension `[normalize_item(item, record_id, scanner_used)
for item in items]`: items are normalized in order and the first exception
propagates. -/
def mapNormalize (items : List PyDict) (rid : Int) (su : List Int) :
    Except PyErr (List PyDict) :=
  match items with
  | [] => .ok []
  | it :: rest => do
    let d ← normalize_item it rid su
    let ds ← mapNormalize rest rid su
    .ok (d :: ds)

/-- main.py `finish_batch`: look the record up (404 when absent), reject an
empty item list (400), reject a record whose status is not `'Running'` (400),
normalize every item with the record's stored scanner configuration, then run
`finish_record`.  The database component of the result is the state after the
call: every error path leaves it untouched. -/
def finish_batch (db : Db) (rid : Nat) (items : List PyDict) (now : Nat)
    (failAt : Option Nat) : Except ApiErr FinishResp × Db :=
  match get_record db rid with
  | none => (.error .notFound, db)
  | some r =>
    if items.isEmpty then (.error .emptyInput, db)
    else if r.status ≠ "Running" then (.error .alreadyFinished, db)
    else
      match mapNormalize items ((rid : Int)) r.scanner_used with
      | .error e => (.error (.pyExc e), db)
      | .ok nds =>
        match finish_record db rid nds now failAt with
        | (some _, db1) => (.error .storage, db1)
        | (none, db1) => (.ok ⟨items.length, r.scanner_used⟩, db1)

/-- Python `bool(x)` on a nullable int column: NULL and 0 are falsy. -/
def pyTruthyInt : Option Int → Bool
  | none => false
  | some n => n != 0

/-- Truthiness of a nullable text column value (`if row.get(col):`). -/
def sqlTruthy : Option String → Bool
  | none => false
  | some s => s != ""

def pyOfSql : Option String → PyVal
  | none => .pnone
  | some s => .pstr s

/-- The item dict models.py `get_record_items` builds from one row: the base
keys always present, then one `scanner_N` object per scanner column whose
stored value is truthy, with `valid` coerced by `bool(...)`. -/
def rowToItem (row : ItemRow) : PyDict :=
  [("item_id", row.item_id),
   ("timestamp", .pstr (toString row.timestamp)),
   ("validation_result", pyOfSql row.validation_result)] ++
  (if sqlTruthy row.scanner_1_value then
     [("scanner_1", .pdict [("value", pyOfSql row.scanner_1_value),
                            ("valid", .pbool (pyTruthyInt row.scanner_1_valid))])]
   else []) ++
  (if sqlTruthy row.scanner_2_value then
     [("scanner_2", .pdict [("value", pyOfSql row.scanner_2_value),
                            ("valid", .pbool (pyTruthyInt row.scanner_2_valid))])]
   else []) ++
  (if sqlTruthy row.scanner_3_value then
     [("scanner_3", .pdict [("value", pyOfSql row.scanner_3_value),
                            ("valid", .pbool (pyTruthyInt row.scanner_3_valid))])]
   else [])

/-- models.py `get_record_items`: the `record_item` rows of one record in
`id ASC` (= insertion) order, marshalled by `rowToItem`. -/
def get_record_items (db : Db) (rid : Nat) : List PyDict :=
  (db.items.filter (fun row => row.record_id == rid)).map rowToItem

/-!
Spreadsheet import

services.py `excel_to_json` reads the sheet with `pd.read_excel(file,
dtype=str)`, so every cell is either a string or NaN.  The frame is modelled
as its column labels plus rows of nullable strings aligned with the labels
(`none` = NaN).  The function validates the three required columns
case-insensitively, cleans each cell (strip; NaN → None) and dumps the
resulting list of dicts to a JSON file; the returned list below is exactly
that dumped JSON array.
-/

structure DataFrame : Type where
  cols : List String
  rows : List (List (Option String))

/-- Python `str.strip()` whitespace (the ASCII part, which is all that can
occur in the modelled cells and labels). -/
def pyIsSpace (c : Char) : Bool :=
  c = ' ' || c = '\t' || c = '\n' || c = '\r'

/-- Python `str.lower()` on ASCII letters. -/
def pyLowerChar (c : Char) : Char :=
  if 'A' ≤ c && c ≤ 'Z' then Char.ofNat (c.toNat + 32) else c

def pyLower (s : String) : String := ⟨s.data.map pyLowerChar⟩

/-- Python `str.strip()`: drop leading and trailing whitespace. -/
def pyStrip (s : String) : String :=
  ⟨((s.data.dropWhile pyIsSpace).reverse.dropWhile pyIsSpace).reverse⟩

/-- `c.lower().strip()` applied to a column label. -/
def lowerStrip (c : String) : String := pyStrip (pyLower c)

/-- The `normalized_cols` dict comprehension: later duplicate normalized
labels overwrite earlier ones, hence the last match wins. -/
def normalizedCol (df : DataFrame) (k : String) : Option String :=
  ((df.cols.filter (fun c => lowerStrip c == k)).getLast?)

/-- `row[label]`: the cell under the first column bearing `label`. -/
def cellAt (df : DataFrame) (row : List (Option String)) (label : String) :
    Option String :=
  match df.cols.findIdx? (fun c => c == label) with
  | none => none
  | some i => (row[i]?).getD none

/-- The `clean` helper: NaN becomes None, anything else is stripped. -/
def cleanCell : Option String → PyVal
  | none => .pnone
  | some s => .pstr (pyStrip s)

inductive ImportErr : Type where
  | missingColumn : String → ImportErr
deriving DecidableEq

/-- services.py `excel_to_json`, modulo file handling: validate the required
columns in order, then build one dict per row under the literal keys
`"Scanner 1"`, `"Scanner 2"`, `"Scanner 3"`.  No `item_id` is ever attached. -/
def excel_to_json (df : DataFrame) : Except ImportErr (List PyDict) :=
  match normalizedCol df "scanner 1" with
  | none => .error (.missingColumn "SCANNER 1")
  | some c1 =>
    match normalizedCol df "scanner 2" with
    | none => .error (.missingColumn "SCANNER 2")
    | some c2 =>
      match normalizedCol df "scanner 3" with
      | none => .error (.missingColumn "SCANNER 3")
      | some c3 =>
        .ok (df.rows.map (fun row =>
          [("Scanner 1", cleanCell (cellAt df row c1)),
           ("Scanner 2", cleanCell (cellAt df row c2)),
           ("Scanner 3", cleanCell (cellAt df row c3))]))

/-!
Reachable database states

The states produced by any interleaving of the two mutating endpoints,
starting from an empty database.  Failed `finish_batch` calls are covered by
the same constructor since the call always returns the resulting state.
-/

inductive Reachable : Db → Prop where
  | base : Reachable emptyDb
  | step_start (db : Db) (p : StartBatchRequest) (now : Nat) :
      Reachable db → Reachable (start_batch db p now).2
  | step_finish (db : Db) (rid : Nat) (items : List PyDict) (now : Nat)
      (failAt : Option Nat) :
      Reachable db → Reachable (finish_batch db rid items now failAt).2

/-- Every `finish_batch` call either leaves the database unchanged or commits
the `finish_record` transaction. -/
lemma finish_batch_db_cases (db : Db) (rid : Nat) (items : List PyDict)
    (now : Nat) (failAt : Option Nat) :
    (finish_batch db rid items now failAt).2 = db ∨
    ∃ nds, (finish_batch db rid items now failAt).2 = finishCommit db rid nds now := by
  unfold finish_batch
  cases hget : get_record db rid with
  | none => left; rfl
  | some r =>
    by_cases he : items.isEmpty
    · left; simp [he]
    · by_cases hs : r.status ≠ "Running"
      · left; simp [he, hs]
      · cases hn : mapNormalize items ((rid : Int)) r.scanner_used with
        | error e => left; simp [he, hs, hn]
        | ok nds =>
          cases hf : failAt with
          | none => right; exact ⟨nds, by simp [he, hs, hn, finish_record]⟩
          | some k =>
            by_cases hk : k < 1 + nds.length
            · left; simp [he, hs, hn, finish_record, hk]
            · right; exact ⟨nds, by simp [he, hs, hn, finish_record, hk]⟩

/-- Record ids are always below the auto-increment counter. -/
lemma reachable_ids_lt {db : Db} (h : Reachable db) :
    ∀ r ∈ db.records, r.id < db.next_id := by
  induction h with
  | base => intro r hr; exact absurd hr (by simp [emptyDb])
  | step_start db p now _ ih =>
    intro r hr
    simp only [start_batch, create_record, List.mem_append] at hr ⊢
    rcases hr with hr | hr
    · exact Nat.lt_succ_of_lt (ih r hr)
    · simp only [List.mem_singleton] at hr
      subst hr
      exact Nat.lt_succ_self _
  | step_finish db rid items now failAt _ ih =>
    intro r hr
    rcases finish_batch_db_cases db rid items now failAt with hc | ⟨nds, hc⟩
    · rw [hc] at hr ⊢; exact ih r hr
    · rw [hc] at hr ⊢
      simp only [finishCommit, List.mem_map] at hr
      obtain ⟨r0, hr0, hmap⟩ := hr
      have : r.id = r0.id := by
        subst hmap
        by_cases hid : r0.id = rid <;> simp [hid]
      simpa [finishCommit, this] using ih r0 hr0

/-!
Claim theorems: the verdict engine
-/

/-- The reading the verdict loop sees for slot `s` of `item`: the pair
`(value, valid)` the `scanners` dict holds after the three `get` calls
(errors are irrelevant wherever this is used under a successful run). -/
def okOr (e : Except PyErr (PyVal × PyVal)) : PyVal × PyVal :=
  match e with
  | .ok p => p
  | .error _ => (.pnone, .pnone)

def itemLookup (item : PyDict) (s : Int) : PyVal × PyVal :=
  if s = 1 then okOr (getScanner item "scanner_1")
  else if s = 2 then okOr (getScanner item "scanner_2")
  else if s = 3 then okOr (getScanner item "scanner_3")
  else (.pnone, .pnone)

lemma itemLookup_eq_slotLookup {item : PyDict} {s1 s2 s3 : PyVal × PyVal}
    (g1 : getScanner item "scanner_1" = .ok s1)
    (g2 : getScanner item "scanner_2" = .ok s2)
    (g3 : getScanner item "scanner_3" = .ok s3) :
    itemLookup item = slotLookup s1 s2 s3 := by
  funext s
  unfold itemLookup slotLookup
  rw [g1, g2, g3]
  rfl

/-- C2.  For every raw item that normalizes successfully and every non-empty
scanner configuration, the computed result is `"FAIL"` iff some configured
slot's valid flag is identically `False`; otherwise the result stays
`"PASS"`, absent values notwithstanding. -/
theorem c2_fail_iff_some_invalid (item : PyDict) (rid : Int) (su : List Int)
    (d : PyDict) (hne : su ≠ [])
    (h : normalize_item item rid su = .ok d) :
    (dictGetD d "result" = .pstr "FAIL" ↔
      ∃ s ∈ su, (itemLookup item s).2 = .pbool false) ∧
    (dictGetD d "result" = .pstr "PASS" ∨ dictGetD d "result" = .pstr "FAIL") := by
  obtain ⟨s1, s2, s3, iid, g1, g2, g3, giid, hd⟩ := normalize_ok_inv h
  rw [itemLookup_eq_slotLookup g1 g2 g3, hd, dictGetD_mkNorm_result]
  constructor
  · rw [← verdictLoop_fail_iff (slotLookup s1 s2 s3) false su]
    simp
  · rcases verdictLoop_pass_or_fail (slotLookup s1 s2 s3) false su with hp | hp
    · left; rw [hp]
    · right; rw [hp]

def c2item : PyDict :=
  [("item_id", .pint 7),
   ("scanner_1", .pdict [("value", .pstr "A"), ("valid", .pbool true)]),
   ("scanner_2", .pdict [("value", .pstr "B"), ("valid", .pbool false)])]

def c2d : PyDict :=
  [("item_id", .pint 7), ("record_id", .pint 9),
   ("scanner_1", .pstr "A"), ("scanner_1_valid", .pbool true),
   ("scanner_2", .pstr "B"), ("scanner_2_valid", .pbool false),
   ("scanner_3", .pnone), ("scanner_3_valid", .pnone),
   ("result", .pstr "FAIL"), ("fallback", .pbool false)]

theorem c2_witness :
    (dictGetD c2d "result" = .pstr "FAIL" ↔
      ∃ s ∈ [(1 : Int), 2], (itemLookup c2item s).2 = .pbool false) ∧
    (dictGetD c2d "result" = .pstr "PASS" ∨ dictGetD c2d "result" = .pstr "FAIL") :=
  c2_fail_iff_some_invalid c2item 9 [1, 2] c2d (by simp) rfl

/-- C3, counterexample.  Batch configured with scanners 1 and 2; scanner 1
carries an explicitly invalid reading, scanner 2 returned no value.  The
`break` taken at scanner 1 skips scanner 2's absence check, so `fallback`
comes out `False` although a configured scanner returned no value. -/
def c3item : PyDict :=
  [("item_id", .pint 1),
   ("scanner_1", .pdict [("value", .pstr "X"), ("valid", .pbool false)])]

def c3d : PyDict :=
  [("item_id", .pint 1), ("record_id", .pint 1),
   ("scanner_1", .pstr "X"), ("scanner_1_valid", .pbool false),
   ("scanner_2", .pnone), ("scanner_2_valid", .pnone),
   ("scanner_3", .pnone), ("scanner_3_valid", .pnone),
   ("result", .pstr "FAIL"), ("fallback", .pbool false)]

theorem c3_counterexample :
    normalize_item c3item 1 [1, 2] = .ok c3d ∧
    dictGetD c3d "fallback" = .pbool false ∧
    (itemLookup c3item 2).1 = .pnone :=
  ⟨rfl, rfl, rfl⟩

/-- C3, amended.  `fallback` is true iff some *scanned* configured slot (the
configured slots up to and including the first explicitly invalid one, in
configuration order) has an absent value; a configured slot after the
short-circuit point never sets the flag. -/
theorem c3_fallback_iff_scanned_absent (item : PyDict) (rid : Int)
    (su : List Int) (d : PyDict)
    (h : normalize_item item rid su = .ok d) :
    dictGetD d "fallback" = .pbool true ↔
      ∃ s ∈ scannedSlots (itemLookup item) su, (itemLookup item s).1 = .pnone := by
  obtain ⟨s1, s2, s3, iid, g1, g2, g3, giid, hd⟩ := normalize_ok_inv h
  rw [itemLookup_eq_slotLookup g1 g2 g3, hd, dictGetD_mkNorm_fallback]
  rw [show ((.pbool ((verdictLoop (slotLookup s1 s2 s3) false su).2) : PyVal) =
        .pbool true ↔ (verdictLoop (slotLookup s1 s2 s3) false su).2 = true) from
      by simp]
  rw [verdictLoop_fallback_iff]
  simp

def c3d2 : PyDict :=
  [("item_id", .pint 1), ("record_id", .pint 1),
   ("scanner_1", .pstr "X"), ("scanner_1_valid", .pbool false),
   ("scanner_2", .pnone), ("scanner_2_valid", .pnone),
   ("scanner_3", .pnone), ("scanner_3_valid", .pnone),
   ("result", .pstr "FAIL"), ("fallback", .pbool true)]

theorem c3_witness :
    dictGetD c3d2 "fallback" = .pbool true ↔
      ∃ s ∈ scannedSlots (itemLookup c3item) [2, 1],
        (itemLookup c3item s).1 = .pnone :=
  c3_fallback_iff_scanned_absent c3item 1 [2, 1] c3d2 rfl

/-- C8, counterexample.  A bare, truthy scalar in a scanner slot is not
tolerated: `data.get("value")` on a string raises `AttributeError`, so
`normalize_item` fails instead of treating it as a reading of unknown
validity. -/
def c8item : PyDict := [("item_id", .pint 1), ("scanner_1", .pstr "X")]

theorem c8_counterexample :
    normalize_item c8item 1 [1] = .error .attributeError := rfl

/-- The dict key of scanner slot s ∈ {1,2,3} (the `scanner_key` argument of
the three `get(...)` calls). -/
def scannerKey (s : Int) : String :=
  if s = 1 then "scanner_1" else if s = 2 then "scanner_2" else "scanner_3"

/-- `get` can only raise `AttributeError`: its sole failure is `.get` on a
truthy non-dict value. -/
lemma getScanner_error_eq {item : PyDict} {key : String} {e : PyErr}
    (h : getScanner item key = .error e) : e = .attributeError := by
  unfold getScanner at h
  by_cases ht : truthy (dictGetD item key) = false
  · simp [ht] at h
  · rw [if_neg ht] at h
    cases hd : dictGetD item key with
    | pdict l => rw [hd] at h; simp at h
    | pnone => rw [hd] at h; injection h with h1; exact h1.symm
    | pbool b => rw [hd] at h; injection h with h1; exact h1.symm
    | pint n => rw [hd] at h; injection h with h1; exact h1.symm
    | pstr t => rw [hd] at h; injection h with h1; exact h1.symm

/-- C8, amended.  A bare scalar in any scanner slot s ∈ {1,2,3} is tolerated
only when it is falsy, and then it is treated as *no* reading at all (value
`None`, valid unknown) rather than as a reading with that value; a truthy
bare scalar makes `normalize_item` raise `AttributeError` (the three slot
extractions run unconditionally, and each can only fail this way). -/
theorem c8_bare_scalar_amended (item : PyDict) (v : PyVal) (rid : Int)
    (su : List Int) (s : Int)
    (hs : s = 1 ∨ s = 2 ∨ s = 3)
    (hv : dictGetD item (scannerKey s) = v)
    (hbare : v.isBareScalar = true) :
    (truthy v = true → normalize_item item rid su = .error .attributeError) ∧
    (truthy v = false → getScanner item (scannerKey s) = .ok (.pnone, .pnone)) := by
  constructor
  · intro ht
    have hg : getScanner item (scannerKey s) = .error .attributeError := by
      unfold getScanner
      rw [hv]
      cases v with
      | pnone => exact absurd hbare (by simp [PyVal.isBareScalar])
      | pdict l => exact absurd hbare (by simp [PyVal.isBareScalar])
      | pbool b => simp [ht]
      | pint n => simp [ht]
      | pstr t => simp [ht]
    unfold normalize_item
    cases hg1 : getScanner item "scanner_1" with
    | error e => rw [except_bind_err, getScanner_error_eq hg1]
    | ok p1 =>
      rw [except_bind_ok]
      cases hg2 : getScanner item "scanner_2" with
      | error e => rw [except_bind_err, getScanner_error_eq hg2]
      | ok p2 =>
        rw [except_bind_ok]
        cases hg3 : getScanner item "scanner_3" with
        | error e => rw [except_bind_err, getScanner_error_eq hg3]
        | ok p3 =>
          rcases hs with h1 | h2 | h3
          · subst h1; exact absurd (hg1.symm.trans hg) (by simp)
          · subst h2; exact absurd (hg2.symm.trans hg) (by simp)
          · subst h3; exact absurd (hg3.symm.trans hg) (by simp)
  · intro ht
    unfold getScanner
    rw [hv]
    simp [ht]

def c8item2 : PyDict := [("item_id", .pint 2), ("scanner_2", .pstr "Y")]

theorem c8_witness :
    (truthy (.pstr "Y") = true →
      normalize_item c8item2 3 [1, 2] = .error .attributeError) ∧
    (truthy (.pstr "Y") = false →
      getScanner c8item2 (scannerKey 2) = .ok (.pnone, .pnone)) :=
  c8_bare_scalar_amended c8item2 (.pstr "Y") 3 [1, 2] 2
    (Or.inr (Or.inl rfl)) rfl rfl

/-!
Claim theorems: batch lifecycle
-/

/-- Updating the finished record inside `finishCommit` does not disturb the
lookup: the same record comes back with its completion fields set. -/
lemma find_map_update (l : List RecordRow) (rid : Nat) (now : Nat) (n : Nat)
    (r : RecordRow)
    (h : l.find? (fun x => x.id == rid) = some r) :
    (l.map (fun x =>
        if x.id = rid then
          { x with end_time := some now, status := "Completed",
                   total_items := some n }
        else x)).find? (fun x => x.id == rid) =
      some { r with end_time := some now, status := "Completed",
                    total_items := some n } := by
  induction l with
  | nil => simp at h
  | cons a t ih =>
    by_cases ha : a.id = rid
    · rw [List.find?_cons_of_pos _ (by simp [ha])] at h
      cases h
      simp only [List.map_cons, if_pos ha]
      exact List.find?_cons_of_pos _ (by simp [ha])
    · rw [List.find?_cons_of_neg _ (by simp [ha])] at h
      simp only [List.map_cons, if_neg ha]
      rw [List.find?_cons_of_neg _ (by simp [ha])]
      exact ih h

lemma get_record_finishCommit {db : Db} {rid : Nat} (nds : List PyDict)
    (now : Nat) {r : RecordRow} (h : get_record db rid = some r) :
    get_record (finishCommit db rid nds now) rid =
      some { r with end_time := some now, status := "Completed",
                    total_items := some nds.length } :=
  find_map_update db.records rid now nds.length r h

/-- A successful `finish_batch` run: the record existed, was `Running`, all
items normalized, and the state is the committed transaction. -/
lemma finish_batch_ok_inv {db : Db} {rid : Nat} {items : List PyDict}
    {now : Nat} {failAt : Option Nat} {resp : FinishResp} {db1 : Db}
    (h : finish_batch db rid items now failAt = (.ok resp, db1)) :
    ∃ r nds, get_record db rid = some r ∧ r.status = "Running" ∧
      mapNormalize items ((rid : Int)) r.scanner_used = .ok nds ∧
      db1 = finishCommit db rid nds now := by
  unfold finish_batch at h
  cases hg : get_record db rid with
  | none => rw [hg] at h; simp at h
  | some r =>
    rw [hg] at h
    by_cases he : items.isEmpty
    · simp [he] at h
    · by_cases hs : r.status ≠ "Running"
      · simp [he, hs] at h
      · rw [not_ne_iff] at hs
        cases hn : mapNormalize items ((rid : Int)) r.scanner_used with
        | error e => simp [he, hs, hn] at h
        | ok nds =>
          refine ⟨r, nds, rfl, hs, hn, ?_⟩
          unfold finish_record at h
          cases hf : failAt with
          | none =>
            subst hf
            simp [he, hs, hn] at h
            exact h.2.symm
          | some k =>
            subst hf
            by_cases hk : k < 1 + nds.length
            · simp [he, hs, hn, hk] at h
            · simp [he, hs, hn, hk] at h
              exact h.2.symm

/-- C4.  `finish` fails with 404 when the batch does not exist, 400
"Item cannot be empty" when the item list is empty, and 400 "Batch already
finished" when the batch is not `Running`; after one successful finish, any
further call (with a non-empty list) fails with "Batch already finished" and
never touches the database. -/
theorem c4_finish_error_cases (db : Db) (rid : Nat) (items items2 : List PyDict)
    (now now2 : Nat) (failAt failAt2 : Option Nat) :
    (get_record db rid = none →
      finish_batch db rid items now failAt = (.error .notFound, db)) ∧
    (∀ r, get_record db rid = some r → items = [] →
      finish_batch db rid items now failAt = (.error .emptyInput, db)) ∧
    (∀ r, get_record db rid = some r → items ≠ [] → r.status ≠ "Running" →
      finish_batch db rid items now failAt = (.error .alreadyFinished, db)) ∧
    (∀ resp db1, finish_batch db rid items now none = (.ok resp, db1) →
      items2 ≠ [] →
      finish_batch db1 rid items2 now2 failAt2 = (.error .alreadyFinished, db1)) := by
  refine ⟨?_, ?_, ?_, ?_⟩
  · intro h; simp [finish_batch, h]
  · intro r hr hempty
    subst hempty
    simp [finish_batch, hr]
  · intro r hr hne hst
    have he : items.isEmpty = false := by
      cases items with
      | nil => exact absurd rfl hne
      | cons a t => rfl
    simp [finish_batch, hr, he, hst]
  · intro resp db1 h hne2
    obtain ⟨r, nds, hr, hrun, hn, hdb1⟩ := finish_batch_ok_inv h
    have hup : get_record db1 rid =
        some { r with end_time := some now, status := "Completed",
                      total_items := some nds.length } := by
      rw [hdb1]; exact get_record_finishCommit nds now hr
    have he2 : items2.isEmpty = false := by
      cases items2 with
      | nil => exact absurd rfl hne2
      | cons a t => rfl
    have hst : ("Completed" : String) ≠ "Running" := by decide
    simp [finish_batch, hup, he2, hst]

def c4raw : PyDict :=
  [("item_id", .pint 1),
   ("scanner_1", .pdict [("value", .pstr "A"), ("valid", .pbool true)]),
   ("scanner_2", .pdict [("value", .pstr "C"), ("valid", .pbool true)])]

def c4db : Db := (start_batch emptyDb ⟨[1, 2], some "B-1"⟩ 0).2

def c4db1 : Db := (finish_batch c4db 1 [c4raw] 5 none).2

theorem c4_witness :
    finish_batch c4db1 1 [c4raw] 6 none = (.error .alreadyFinished, c4db1) :=
  (c4_finish_error_cases c4db 1 [c4raw] [c4raw] 5 6 none none).2.2.2
    ⟨1, [1, 2]⟩ c4db1 rfl (by simp)

/-- C5.  The finalize transaction is atomic: a failure at any statement of
the `finish_record` transaction (the UPDATE or any item INSERT) surfaces as a
storage error and leaves the database exactly as it was — in particular the
batch is still `Running` — and the same call retried without the fault
commits the full write. -/
theorem c5_finalize_atomic (db : Db) (rid : Nat) (items nds : List PyDict)
    (now now2 k : Nat) (r : RecordRow)
    (hr : get_record db rid = some r)
    (hrun : r.status = "Running")
    (hne : items ≠ [])
    (hn : mapNormalize items ((rid : Int)) r.scanner_used = .ok nds)
    (hk : k < 1 + nds.length) :
    finish_batch db rid items now (some k) = (.error .storage, db) ∧
    finish_batch db rid items now2 none =
      (.ok ⟨items.length, r.scanner_used⟩, finishCommit db rid nds now2) := by
  have he : items.isEmpty = false := by
    cases items with
    | nil => exact absurd rfl hne
    | cons a t => rfl
  constructor
  · simp [finish_batch, hr, he, hrun, hn, finish_record, hk]
  · simp [finish_batch, hr, he, hrun, hn, finish_record]

def c5raw : PyDict :=
  [("item_id", .pint 4),
   ("scanner_1", .pdict [("value", .pstr "Z"), ("valid", .pbool true)])]

def c5norm : PyDict :=
  [("item_id", .pint 4), ("record_id", .pint 1),
   ("scanner_1", .pstr "Z"), ("scanner_1_valid", .pbool true),
   ("scanner_2", .pnone), ("scanner_2_valid", .pnone),
   ("scanner_3", .pnone), ("scanner_3_valid", .pnone),
   ("result", .pstr "PASS"), ("fallback", .pbool false)]

def c5db : Db := (start_batch emptyDb ⟨[1], none⟩ 0).2

def c5rec : RecordRow :=
  { id := 1, batch_code := none, scanner_used := [1], start_time := 0,
    end_time := none, status := "Running", total_items := some 0 }

theorem c5_witness :
    finish_batch c5db 1 [c5raw] 7 (some 0) = (.error .storage, c5db) ∧
    finish_batch c5db 1 [c5raw] 8 none =
      (.ok ⟨1, [1]⟩, finishCommit c5db 1 [c5norm] 8) :=
  c5_finalize_atomic c5db 1 [c5raw] [c5norm] 7 8 0 c5rec rfl rfl
    (by simp) rfl (by simp)

/-!
Claim theorem: the persisted verdict (C1)
-/

def c1raw : PyDict :=
  [("item_id", .pint 1),
   ("scanner_1", .pdict [("value", .pstr "A"), ("valid", .pbool true)])]

def c1db0 : Db := (start_batch emptyDb ⟨[1], none⟩ 0).2

def c1norm : PyDict :=
  [("item_id", .pint 1), ("record_id", .pint 1),
   ("scanner_1", .pstr "A"), ("scanner_1_valid", .pbool true),
   ("scanner_2", .pnone), ("scanner_2_valid", .pnone),
   ("scanner_3", .pnone), ("scanner_3_valid", .pnone),
   ("result", .pstr "PASS"), ("fallback", .pbool false)]

def c1stored : PyDict :=
  [("item_id", .pint 1), ("timestamp", .pstr "5"),
   ("validation_result", .pnone)]

/-- C1, failing run.  One batch with scanner 1 configured, one well-formed
item; `normalize_item` computes result `"PASS"`, `finish_batch` succeeds —
yet the row read back carries `validation_result = NULL`, not `"PASS"`:
`finish_record` reads the keys `scanner_N_value` / `validation_result`, while
`normalize_item` emits `scanner_N` / `result`, so the computed verdict (and
every scanner value) is dropped on insert. -/
theorem c1_result_not_persisted :
    normalize_item c1raw 1 [1] = .ok c1norm ∧
    dictGetD c1norm "result" = .pstr "PASS" ∧
    (finish_batch c1db0 1 [c1raw] 5 none).1 = .ok ⟨1, [1]⟩ ∧
    get_record_items (finish_batch c1db0 1 [c1raw] 5 none).2 1 = [c1stored] ∧
    dictGetD c1stored "validation_result" = .pnone ∧
    dictGetD c1stored "validation_result" ≠ .pstr "PASS" :=
  ⟨rfl, rfl, rfl, rfl, rfl, by simp [c1stored, dictGetD, dictGet?]⟩

/-!
Claim theorems: batch creation and the record invariant
-/

/-- C6, counterexample.  `start` with an *empty* scanner configuration does
not fail with any validation error: it creates a `Running` batch and returns
its id.  Neither schema.py (type check only) nor main.py/models.py validate
`scanner_used`. -/
theorem c6_counterexample :
    (start_batch emptyDb ⟨[], none⟩ 0).2.records =
      [{ id := 1, batch_code := none, scanner_used := [], start_time := 0,
         end_time := none, status := "Running", total_items := some 0 }] ∧
    (start_batch emptyDb ⟨[], none⟩ 0).1.record_id = 1 :=
  ⟨rfl, rfl⟩

/-- C6, amended.  `start` performs no validation of `scannersConfigured` at
all: for every payload — empty list, values outside {1,2,3}, duplicates — it
persists a new `Running` batch holding exactly that configuration and returns
its fresh identifier. -/
theorem c6_start_no_validation (db : Db) (p : StartBatchRequest) (now : Nat)
    (h : Reachable db) :
    (start_batch db p now).2.records =
      db.records ++
        [{ id := (start_batch db p now).1.record_id,
           batch_code := p.batch_code, scanner_used := p.scanner_used,
           start_time := now, end_time := none, status := "Running",
           total_items := some 0 }] ∧
    (start_batch db p now).1.record_id = db.next_id ∧
    (start_batch db p now).1.scanner_used = p.scanner_used ∧
    ∀ r ∈ db.records, r.id ≠ (start_batch db p now).1.record_id := by
  refine ⟨rfl, rfl, rfl, ?_⟩
  intro r hr
  exact Nat.ne_of_lt (reachable_ids_lt h r hr)

def c6db : Db := (start_batch emptyDb ⟨[3], some "X"⟩ 1).2

theorem c6_witness :
    (start_batch c6db ⟨[2, 2, 9], some "dup"⟩ 4).2.records =
      c6db.records ++
        [{ id := (start_batch c6db ⟨[2, 2, 9], some "dup"⟩ 4).1.record_id,
           batch_code := some "dup", scanner_used := [2, 2, 9],
           start_time := 4, end_time := none, status := "Running",
           total_items := some 0 }] ∧
    (start_batch c6db ⟨[2, 2, 9], some "dup"⟩ 4).1.record_id = c6db.next_id ∧
    (start_batch c6db ⟨[2, 2, 9], some "dup"⟩ 4).1.scanner_used = [2, 2, 9] ∧
    ∀ r ∈ c6db.records,
      r.id ≠ (start_batch c6db ⟨[2, 2, 9], some "dup"⟩ 4).1.record_id :=
  c6_start_no_validation c6db ⟨[2, 2, 9], some "dup"⟩ 4
    (Reachable.step_start emptyDb ⟨[3], some "X"⟩ 1 Reachable.base)

def c7rec : RecordRow :=
  { id := 1, batch_code := none, scanner_used := [1], start_time := 0,
    end_time := none, status := "Running", total_items := some 0 }

/-- C7, counterexample.  A freshly created batch is `Running` with
`end_time` NULL — but `total_items` is `0`, not NULL: `create_record` inserts
the literal `0` into that column, so "total_items non-null iff Completed"
fails right after `start`. -/
theorem c7_counterexample :
    (start_batch emptyDb ⟨[1], none⟩ 0).2.records.head? = some c7rec ∧
    c7rec.status = "Running" ∧
    c7rec.end_time = none ∧
    c7rec.total_items = some 0 ∧
    c7rec.total_items ≠ none :=
  ⟨rfl, rfl, rfl, rfl, by simp [c7rec]⟩

lemma running_ne_completed : ("Running" : String) ≠ "Completed" := by decide

lemma completed_ne_running : ("Completed" : String) ≠ "Running" := by decide

/-- C7, amended.  In every reachable state, `end_time` is non-null iff the
batch is `Completed`; `total_items` however is *always* non-null — `0` while
the batch is `Running` (set at creation) and the submitted item count after
finalize. -/
theorem c7_invariant (db : Db) (h : Reachable db) :
    ∀ r ∈ db.records,
      (r.end_time ≠ none ↔ r.status = "Completed") ∧
      r.total_items ≠ none ∧
      (r.status = "Running" → r.total_items = some 0) := by
  induction h with
  | base => intro r hr; exact absurd hr (by simp [emptyDb])
  | step_start db p now _ ih =>
    intro r hr
    simp only [start_batch, create_record, List.mem_append,
      List.mem_singleton] at hr
    rcases hr with hr | hr
    · exact ih r hr
    · subst hr
      refine ⟨⟨fun hc => absurd rfl hc, fun hc => absurd hc running_ne_completed⟩,
        by simp, fun _ => rfl⟩
  | step_finish db rid items now failAt _ ih =>
    intro r hr
    rcases finish_batch_db_cases db rid items now failAt with hc | ⟨nds, hc⟩
    · rw [hc] at hr; exact ih r hr
    · rw [hc] at hr
      simp only [finishCommit, List.mem_map] at hr
      obtain ⟨r0, hr0, hmap⟩ := hr
      by_cases hid : r0.id = rid
      · rw [if_pos hid] at hmap
        subst hmap
        exact ⟨⟨fun _ => rfl, fun _ => by simp⟩, by simp,
          fun hcr => absurd hcr completed_ne_running⟩
      · rw [if_neg hid] at hmap
        subst hmap
        exact ih r0 hr0

def c7db : Db := (start_batch emptyDb ⟨[1, 2], none⟩ 2).2

def c7rec2 : RecordRow :=
  { id := 1, batch_code := none, scanner_used := [1, 2], start_time := 2,
    end_time := none, status := "Running", total_items := some 0 }

theorem c7_witness :
    (c7rec2.end_time ≠ none ↔ c7rec2.status = "Completed") ∧
    c7rec2.total_items ≠ none ∧
    (c7rec2.status = "Running" → c7rec2.total_items = some 0) :=
  c7_invariant c7db
    (Reachable.step_start emptyDb ⟨[1, 2], none⟩ 2 Reachable.base)
    c7rec2 (List.mem_singleton.mpr rfl)

/-!
Claim theorems: spreadsheet import (C9)
-/

/-- C9, counterexample.  A sheet with the three required columns (matched
case-insensitively) and one data row.  The produced item carries *no*
`item_id` key at all — in particular not the 1-based row position 1 — and
consequently `normalize_item` raises `KeyError` on it, so the produced
sequence is not a valid `finish` input. -/
def c9df : DataFrame :=
  ⟨["Scanner 1", " SCANNER 2", "scanner 3"], [[some " A ", some "B", none]]⟩

def c9item : PyDict :=
  [("Scanner 1", .pstr "A"), ("Scanner 2", .pstr "B"), ("Scanner 3", .pnone)]

theorem c9_counterexample :
    excel_to_json c9df = .ok [c9item] ∧
    dictGet? c9item "item_id" = none ∧
    normalize_item c9item 1 [1, 2, 3] = .error .keyError :=
  ⟨rfl, rfl, rfl⟩

/-- C9, amended.  A successful import yields one dict per data row, keyed
`"Scanner 1"`/`"Scanner 2"`/`"Scanner 3"` with cleaned cells (strip, NaN →
None); no `item_id` is assigned, and every produced item makes
`normalize_item` — hence `finish` — fail with `KeyError`. -/
theorem c9_import_shape (df : DataFrame) (out : List PyDict)
    (h : excel_to_json df = .ok out) :
    out.length = df.rows.length ∧
    ∀ it ∈ out,
      dictGet? it "item_id" = none ∧
      (∀ rid su, normalize_item it rid su = .error .keyError) ∧
      ∃ c1 c2 c3 : Option String,
        it = [("Scanner 1", cleanCell c1), ("Scanner 2", cleanCell c2),
              ("Scanner 3", cleanCell c3)] := by
  unfold excel_to_json at h
  cases h1 : normalizedCol df "scanner 1" with
  | none => rw [h1] at h; simp at h
  | some c1 =>
    rw [h1] at h
    cases h2 : normalizedCol df "scanner 2" with
    | none => rw [h2] at h; simp at h
    | some c2 =>
      rw [h2] at h
      cases h3 : normalizedCol df "scanner 3" with
      | none => rw [h3] at h; simp at h
      | some c3 =>
        rw [h3] at h
        simp only [Except.ok.injEq] at h
        constructor
        · rw [← h]; simp
        · intro it hit
          rw [← h] at hit
          obtain ⟨row, hrow, hmap⟩ := List.mem_map.mp hit
          subst hmap
          exact ⟨rfl, fun rid su => rfl,
            ⟨cellAt df row c1, cellAt df row c2, cellAt df row c3, rfl⟩⟩

theorem c9_witness :
    ([c9item] : List PyDict).length = c9df.rows.length ∧
    ∀ it ∈ [c9item],
      dictGet? it "item_id" = none ∧
      (∀ rid su, normalize_item it rid su = .error .keyError) ∧
      ∃ c1 c2 c3 : Option String,
        it = [("Scanner 1", cleanCell c1), ("Scanner 2", cleanCell c2),
              ("Scanner 3", cleanCell c3)] :=
  c9_import_shape c9df [c9item] rfl

/-!
Claim theorems: item read-back (C10)
-/

lemma sqlTruthy_iff (v : Option String) :
    sqlTruthy v = true ↔ (v ≠ none ∧ v ≠ some "") := by
  cases v with
  | none => simp [sqlTruthy]
  | some s => simp [sqlTruthy]

lemma rowToItem_get_1 (row : ItemRow) :
    dictGet? (rowToItem row) "scanner_1" =
      if sqlTruthy row.scanner_1_value then
        some (.pdict [("value", pyOfSql row.scanner_1_value),
                      ("valid", .pbool (pyTruthyInt row.scanner_1_valid))])
      else none := by
  by_cases h1 : sqlTruthy row.scanner_1_value <;>
    by_cases h2 : sqlTruthy row.scanner_2_value <;>
      by_cases h3 : sqlTruthy row.scanner_3_value <;>
        simp [rowToItem, dictGet?, h1, h2, h3]

lemma rowToItem_get_2 (row : ItemRow) :
    dictGet? (rowToItem row) "scanner_2" =
      if sqlTruthy row.scanner_2_value then
        some (.pdict [("value", pyOfSql row.scanner_2_value),
                      ("valid", .pbool (pyTruthyInt row.scanner_2_valid))])
      else none := by
  by_cases h1 : sqlTruthy row.scanner_1_value <;>
    by_cases h2 : sqlTruthy row.scanner_2_value <;>
      by_cases h3 : sqlTruthy row.scanner_3_value <;>
        simp [rowToItem, dictGet?, h1, h2, h3]

lemma rowToItem_get_3 (row : ItemRow) :
    dictGet? (rowToItem row) "scanner_3" =
      if sqlTruthy row.scanner_3_value then
        some (.pdict [("value", pyOfSql row.scanner_3_value),
                      ("valid", .pbool (pyTruthyInt row.scanner_3_valid))])
      else none := by
  by_cases h1 : sqlTruthy row.scanner_1_value <;>
    by_cases h2 : sqlTruthy row.scanner_2_value <;>
      by_cases h3 : sqlTruthy row.scanner_3_value <;>
        simp [rowToItem, dictGet?, h1, h2, h3]

/-- What one marshalled reading satisfies, given its defining equation. -/
lemma reading_spec (val : Option String) (vld : Option Int) (res : Option PyVal)
    (hres : res = if sqlTruthy val then
        some (.pdict [("value", pyOfSql val),
                      ("valid", .pbool (pyTruthyInt vld))])
      else none) :
    (res.isSome ↔ (val ≠ none ∧ val ≠ some "")) ∧
    ∀ pv, res = some pv → ∃ v, val = some v ∧
      pv = .pdict [("value", .pstr v), ("valid", .pbool (pyTruthyInt vld))] := by
  subst hres
  by_cases h : sqlTruthy val = true
  · rw [if_pos h]
    refine ⟨by simp [(sqlTruthy_iff val).mp h], ?_⟩
    intro pv hpv
    cases hv : val with
    | none => rw [hv] at h; exact absurd h (by simp [sqlTruthy])
    | some v =>
      refine ⟨v, rfl, ?_⟩
      rw [hv] at hpv
      simp only [pyOfSql, Option.some.injEq] at hpv
      exact hpv.symm
  · rw [if_neg h]
    constructor
    · simp only [Option.isSome_none, Bool.false_eq_true, false_iff]
      rw [← sqlTruthy_iff]
      exact h
    · intro pv hpv; exact absurd hpv (by simp)

/-- C10.  Every item returned by `get_record_items` comes from a stored row
of the batch, and for each slot s ∈ {1,2,3}: the `scanner_s` reading is
present iff the stored `scanner_s_value` is non-null and non-empty, and a
present reading always carries a strict-boolean `valid` flag (`bool(...)` of
the stored column) — never the unknown/null state. -/
theorem c10_reading_present_iff (db : Db) (rid : Nat) (it : PyDict)
    (hit : it ∈ get_record_items db rid) :
    ∃ row, row ∈ db.items ∧ row.record_id = rid ∧ it = rowToItem row ∧
      (((dictGet? it "scanner_1").isSome ↔
          (row.scanner_1_value ≠ none ∧ row.scanner_1_value ≠ some "")) ∧
        ∀ pv, dictGet? it "scanner_1" = some pv → ∃ v,
          row.scanner_1_value = some v ∧
          pv = .pdict [("value", .pstr v),
                       ("valid", .pbool (pyTruthyInt row.scanner_1_valid))]) ∧
      (((dictGet? it "scanner_2").isSome ↔
          (row.scanner_2_value ≠ none ∧ row.scanner_2_value ≠ some "")) ∧
        ∀ pv, dictGet? it "scanner_2" = some pv → ∃ v,
          row.scanner_2_value = some v ∧
          pv = .pdict [("value", .pstr v),
                       ("valid", .pbool (pyTruthyInt row.scanner_2_valid))]) ∧
      (((dictGet? it "scanner_3").isSome ↔
          (row.scanner_3_value ≠ none ∧ row.scanner_3_value ≠ some "")) ∧
        ∀ pv, dictGet? it "scanner_3" = some pv → ∃ v,
          row.scanner_3_value = some v ∧
          pv = .pdict [("value", .pstr v),
                       ("valid", .pbool (pyTruthyInt row.scanner_3_valid))]) := by
  unfold get_record_items at hit
  obtain ⟨row, hrow, heq⟩ := List.mem_map.mp hit
  obtain ⟨hmem, hpred⟩ := List.mem_filter.mp hrow
  refine ⟨row, hmem, by simpa using hpred, heq.symm, ?_, ?_, ?_⟩
  · rw [heq.symm]
    exact reading_spec row.scanner_1_value row.scanner_1_valid _ (rowToItem_get_1 row)
  · rw [heq.symm]
    exact reading_spec row.scanner_2_value row.scanner_2_valid _ (rowToItem_get_2 row)
  · rw [heq.symm]
    exact reading_spec row.scanner_3_value row.scanner_3_valid _ (rowToItem_get_3 row)

def c10row : ItemRow :=
  { record_id := 2, item_id := .pint 9, timestamp := 3,
    scanner_1_value := some "QQ", scanner_1_valid := some 1,
    scanner_2_value := some "", scanner_2_valid := some 1,
    scanner_3_value := none, scanner_3_valid := none,
    validation_result := some "PASS" }

def c10db : Db := ⟨[], [c10row], 1⟩

theorem c10_witness :
    ∃ row, row ∈ c10db.items ∧ row.record_id = 2 ∧
      rowToItem c10row = rowToItem row ∧
      (((dictGet? (rowToItem c10row) "scanner_1").isSome ↔
          (row.scanner_1_value ≠ none ∧ row.scanner_1_value ≠ some "")) ∧
        ∀ pv, dictGet? (rowToItem c10row) "scanner_1" = some pv → ∃ v,
          row.scanner_1_value = some v ∧
          pv = .pdict [("value", .pstr v),
                       ("valid", .pbool (pyTruthyInt row.scanner_1_valid))]) ∧
      (((dictGet? (rowToItem c10row) "scanner_2").isSome ↔
          (row.scanner_2_value ≠ none ∧ row.scanner_2_value ≠ some "")) ∧
        ∀ pv, dictGet? (rowToItem c10row) "scanner_2" = some pv → ∃ v,
          row.scanner_2_value = some v ∧
          pv = .pdict [("value", .pstr v),
                       ("valid", .pbool (pyTruthyInt row.scanner_2_valid))]) ∧
      (((dictGet? (rowToItem c10row) "scanner_3").isSome ↔
          (row.scanner_3_value ≠ none ∧ row.scanner_3_value ≠ some "")) ∧
        ∀ pv, dictGet? (rowToItem c10row) "scanner_3" = some pv → ∃ v,
          row.scanner_3_value = some v ∧
          pv = .pdict [("value", .pstr v),
                       ("valid", .pbool (pyTruthyInt row.scanner_3_valid))]) :=
  c10_reading_present_iff c10db 2 (rowToItem c10row)
    (List.mem_singleton.mpr rfl)
